import Mathlib

/-!
Verification of the pawprint report ingestion and uptime/alert pipeline.

The definitions below are a shallow embedding of the TypeScript source:
the relational route handler (POST and GET over the readings store), the
public status page uptime computation, the invite consumption flow, the
collector cost estimation, and the in-memory storage variant. Timestamps
are modelled as milliseconds since the epoch (Int), money and rates as
rationals, nullable SQL columns and optional JSON fields as Option.
-/

namespace Pawprint

/-- Model of Math.round on a rational: floor of x + 1/2 (JS rounds half up). -/
def jsRound (q : ℚ) : ℤ := (q + 1/2).floor

/-- JS truthiness of a nullable boolean column: only a non-null true is truthy. -/
def jsTruthyBool (o : Option Bool) : Bool :=
  match o with
  | some b => b
  | none => false

/-- JS truthiness of a nullable text column: truthy iff non-null and non-empty. -/
def jsTruthyStr (o : Option String) : Bool :=
  match o with
  | some s => decide (s ≠ "")
  | none => false

/-- One endpoint check result carried in the report payload. -/
structure EndpointP where
  name : String
  url : String
  status : String
  responseTime : Option Int
  statusCode : Option Int
  errMsg : Option String
deriving DecidableEq, Repr

/-- One process check result carried in the report payload. -/
structure ProcessP where
  name : String
  running : Bool
  pid : Option Int
  cpu : Option ℚ
  memory : Option ℚ
deriving DecidableEq, Repr

/-- The gateway block of the report payload. -/
structure GatewayP where
  online : Bool
  uptime : Int
deriving DecidableEq, Repr

/-- The sessions block of the report payload. -/
structure SessionsP where
  active : Int
  total : Int
deriving DecidableEq, Repr

/-- The crons block of the report payload. -/
structure CronsP where
  enabled : Int
  total : Int
deriving DecidableEq, Repr

/-- The costs block of the report payload. -/
structure CostsP where
  today : ℚ
  month : ℚ
deriving DecidableEq, Repr

/-- The tokens block of the report payload. -/
structure TokensP where
  input : Int
  output : Int
deriving DecidableEq, Repr

/-- The system block of the report payload. -/
structure SystemP where
  hostname : Option String
  platform : Option String
  arch : Option String
  cpuCount : Option Int
  cpuUsagePercent : Option Int
  memoryTotalMb : Option Int
  memoryFreeMb : Option Int
  memoryUsedPercent : Option Int
  diskTotalGb : Option Int
  diskFreeGb : Option Int
  diskUsedPercent : Option Int
  localIp : Option String
  uptime : Option Int
  loadAvg : Option (List ℚ)
deriving DecidableEq, Repr

/-- The last error recorded in the errors block. -/
structure LastErrorP where
  message : String
  timestamp : String
deriving DecidableEq, Repr

/-- The errors block of the report payload. -/
structure ErrorsP where
  last24h : Int
  lastError : Option LastErrorP
deriving DecidableEq, Repr

/-- The JSON body of POST v1 report, matching the ReportPayload interface.
Every block the handler reads through an optional chain is an Option. -/
structure ReportPayload where
  timestamp : Option Int
  gateway : Option GatewayP
  sessions : Option SessionsP
  crons : Option CronsP
  costs : Option CostsP
  tokens : Option TokensP
  modelBreakdown : Option (List (String × Nat))
  system : Option SystemP
  endpoints : Option (List EndpointP)
  processes : Option (List ProcessP)
  custom : Option (List (String × String))
  errors : Option ErrorsP
deriving DecidableEq, Repr

/-- One row of the readings table. Nullable columns are Options. -/
structure ReadingRow where
  workspaceId : Nat
  timestamp : Int
  gatewayOnline : Option Bool
  gatewayUptime : Option Int
  sessionsActive : Option Int
  sessionsTotal : Option Int
  cronsEnabled : Option Int
  cronsTotal : Option Int
  costToday : Option ℚ
  costMonth : Option ℚ
  tokensInput : Option Int
  tokensOutput : Option Int
  modelBreakdown : Option (List (String × Nat))
  systemHostname : Option String
  systemPlatform : Option String
  systemArch : Option String
  systemCpuCount : Option Int
  systemCpuUsagePercent : Option Int
  systemMemoryTotalMb : Option Int
  systemMemoryUsedPercent : Option Int
  systemMemoryFreeMb : Option Int
  systemDiskTotalGb : Option Int
  systemDiskUsedPercent : Option Int
  systemDiskFreeGb : Option Int
  systemLocalIp : Option String
  systemUptime : Option Int
  systemLoadAvg : Option (List ℚ)
  endpoints : Option (List EndpointP)
  processes : Option (List ProcessP)
  customMetrics : Option (List (String × String))
  errorsCount : Option Int
  lastErrorMessage : Option String
  lastErrorTimestamp : Option String
deriving DecidableEq, Repr

/-- A workspace row: the tenant, its bearer credential and alert settings.
The driver returns the numeric cost threshold column as a string, so any
non-null value of it is JS-truthy; the downtime minutes column is an INT. -/
structure Workspace where
  id : Nat
  userId : Option Nat
  name : String
  apiKey : String
  slug : Option String
  alertCostThreshold : Option ℚ
  alertDowntimeMinutes : Option Int
  slackWebhookUrl : Option String
deriving DecidableEq, Repr

/-- The INSERT INTO readings statement of the report handler: every value is
taken from the payload through an optional chain defaulting to null, except
the timestamp which defaults to the current time and the error count which
defaults to 0. -/
def insertReading (wsId : Nat) (now : Int) (p : ReportPayload) : ReadingRow where
  workspaceId := wsId
  timestamp := p.timestamp.getD now
  gatewayOnline := p.gateway.map (fun g => g.online)
  gatewayUptime := p.gateway.map (fun g => g.uptime)
  sessionsActive := p.sessions.map (fun s => s.active)
  sessionsTotal := p.sessions.map (fun s => s.total)
  cronsEnabled := p.crons.map (fun c => c.enabled)
  cronsTotal := p.crons.map (fun c => c.total)
  costToday := p.costs.map (fun c => c.today)
  costMonth := p.costs.map (fun c => c.month)
  tokensInput := p.tokens.map (fun t => t.input)
  tokensOutput := p.tokens.map (fun t => t.output)
  modelBreakdown := p.modelBreakdown
  systemHostname := p.system.bind (fun s => s.hostname)
  systemPlatform := p.system.bind (fun s => s.platform)
  systemArch := p.system.bind (fun s => s.arch)
  systemCpuCount := p.system.bind (fun s => s.cpuCount)
  systemCpuUsagePercent := p.system.bind (fun s => s.cpuUsagePercent)
  systemMemoryTotalMb := p.system.bind (fun s => s.memoryTotalMb)
  systemMemoryUsedPercent := p.system.bind (fun s => s.memoryUsedPercent)
  systemMemoryFreeMb := p.system.bind (fun s => s.memoryFreeMb)
  systemDiskTotalGb := p.system.bind (fun s => s.diskTotalGb)
  systemDiskUsedPercent := p.system.bind (fun s => s.diskUsedPercent)
  systemDiskFreeGb := p.system.bind (fun s => s.diskFreeGb)
  systemLocalIp := p.system.bind (fun s => s.localIp)
  systemUptime := p.system.bind (fun s => s.uptime)
  systemLoadAvg := p.system.bind (fun s => s.loadAvg)
  endpoints := p.endpoints
  processes := p.processes
  customMetrics := p.custom
  errorsCount := some ((p.errors.map (fun e => e.last24h)).getD 0)
  lastErrorMessage := (p.errors.bind (fun e => e.lastError)).map (fun l => l.message)
  lastErrorTimestamp := (p.errors.bind (fun e => e.lastError)).map (fun l => l.timestamp)

/-- Extract the bearer credential from the Authorization header: the header
must start with the seven character Bearer prefix and the key is everything
after it (startsWith then slice 7, here on the character list). -/
def bearerToken (auth : Option String) : Option String :=
  match auth with
  | none => none
  | some s =>
    if s.toList.take 7 = "Bearer ".toList then some (String.mk (s.toList.drop 7)) else none

/-- getWorkspaceFromKey: resolve an api key to its workspace (api_key UNIQUE). -/
def getWorkspaceFromKey (workspaces : List Workspace) (key : String) : Option Workspace :=
  workspaces.find? (fun w => w.apiKey = key)

/-- The cost alert condition of the report handler: the threshold column is
truthy (non-null, since the driver renders the numeric as a string) and the
payload today cost compares greater than it. A missing costs block compares
as undefined and the condition is false. -/
def costAlertCond (ws : Workspace) (p : ReportPayload) : Bool :=
  ws.alertCostThreshold.isSome &&
    (match p.costs, ws.alertCostThreshold with
     | some c, some t => decide (t < c.today)
     | _, _ => false)

/-- Ordering used by ORDER BY timestamp DESC: a row precedes another when its
timestamp is at least the other's. -/
def tsDesc (a b : ReadingRow) : Prop := b.timestamp ≤ a.timestamp

instance : DecidableRel tsDesc := fun a b => inferInstanceAs (Decidable (b.timestamp ≤ a.timestamp))

instance : IsTotal ReadingRow tsDesc := ⟨fun a b => le_total b.timestamp a.timestamp⟩

instance : IsTrans ReadingRow tsDesc := ⟨fun _ _ _ h h2 => le_trans h2 h⟩

/-- SELECT rows of one workspace ORDER BY timestamp DESC. -/
def rowsDesc (readings : List ReadingRow) (wsId : Nat) : List ReadingRow :=
  (readings.filter (fun r => r.workspaceId = wsId)).insertionSort tsDesc

/-- The single most recent reading of a workspace (LIMIT 1 of the descending
order), as used by the dashboard query. -/
def mostRecentReading (readings : List ReadingRow) (wsId : Nat) : Option ReadingRow :=
  (rowsDesc readings wsId).head?

/-- The downtime window query of the report handler: readings of the workspace
strictly newer than the cutoff, newest first. -/
def recentReadings (readings : List ReadingRow) (wsId : Nat) (cutoff : Int) : List ReadingRow :=
  ((readings.filter (fun r => r.workspaceId = wsId)).filter
    (fun r => cutoff < r.timestamp)).insertionSort tsDesc

/-- The body of the downtime check over the window query result: at least one
row, whose first row is not online, and no row of the window online. -/
def downtimeWindowCheck (recent : List ReadingRow) : Bool :=
  match recent with
  | [] => false
  | r0 :: _ =>
    if jsTruthyBool r0.gatewayOnline then false
    else decide (∀ r ∈ recent, jsTruthyBool r.gatewayOnline = false)

/-- The downtime alert condition of the report handler: the configured minutes
value is truthy and the window check holds on the readings of the trailing
n minute window, newest first. -/
def downtimeAlertCond (ws : Workspace) (readings : List ReadingRow) (now : Int) : Bool :=
  match ws.alertDowntimeMinutes with
  | none => false
  | some n =>
    if n = 0 then false
    else downtimeWindowCheck (recentReadings readings ws.id (now - n * 60000))

/-- The catch on the webhook fetch: a rejected promise is logged and swallowed,
so the dispatch result never escapes into the response. -/
def catchLogged (_result : Except Unit Unit) : Unit := ()

/-- Result of one POST v1 report call: response status and body flag, the
readings store after the call, and whether each alert notification was
actually dispatched to the webhook. -/
structure ReportResult where
  status : Nat
  success : Bool
  readings : List ReadingRow
  costDispatched : Bool
  downtimeDispatched : Bool
deriving DecidableEq, Repr

/-- Dispatch step for a fired alert: only a truthy webhook URL is called, and
the call result is caught and discarded. Returns whether a call was made. -/
def dispatchIfFired (fired : Bool) (url : Option String) (webhookFetch : String → Except Unit Unit) : Bool :=
  if fired then
    match url with
    | some u =>
      if jsTruthyStr (some u) then
        let _ := catchLogged (webhookFetch u)
        true
      else false
    | none => false
  else false

/-- The POST v1 report handler: bearer auth, workspace resolution, body parse,
one INSERT, then the two alert checks, in source order. webhookFetch is the
outside world answering the outbound notification calls. -/
def handleReport (workspaces : List Workspace) (readings : List ReadingRow)
    (auth : Option String) (body : Except Unit ReportPayload) (now : Int)
    (webhookFetch : String → Except Unit Unit) : ReportResult :=
  match bearerToken auth with
  | none => ⟨401, false, readings, false, false⟩
  | some key =>
    match getWorkspaceFromKey workspaces key with
    | none => ⟨401, false, readings, false, false⟩
    | some ws =>
      match body with
      | Except.error _ => ⟨400, false, readings, false, false⟩
      | Except.ok p =>
        let row := insertReading ws.id now p
        let readings2 := readings ++ [row]
        let costFired := costAlertCond ws p
        let costSent := dispatchIfFired costFired ws.slackWebhookUrl webhookFetch
        let downFired := downtimeAlertCond ws readings2 now
        let downSent := dispatchIfFired downFired ws.slackWebhookUrl webhookFetch
        ⟨200, true, readings2, costSent, downSent⟩

/-! Aggregation queries: uptime windows and history. -/

/-- calcUptime of the status route: when the window row count is positive,
online over total times 100, via Math.round; otherwise null. -/
def calcUptime (total online : Nat) : Option ℤ :=
  if 0 < total then some (jsRound ((online : ℚ) / (total : ℚ) * 100)) else none

/-- The readings of one workspace strictly newer than a cutoff (the WHERE
clause of the three uptime window queries). -/
def windowRows (readings : List ReadingRow) (wsId : Nat) (cutoff : Int) : List ReadingRow :=
  readings.filter (fun r => decide (r.workspaceId = wsId) && decide (cutoff < r.timestamp))

/-- SUM(CASE WHEN gateway_online = true THEN 1 ELSE 0 END): null is not true. -/
def onlineCount (rows : List ReadingRow) : Nat :=
  rows.countP (fun r => r.gatewayOnline = some true)

/-- Uptime percentage of one window, from the aggregate query of that window. -/
def uptimeWindow (readings : List ReadingRow) (wsId : Nat) (cutoff : Int) : Option ℤ :=
  calcUptime (windowRows readings wsId cutoff).length (onlineCount (windowRows readings wsId cutoff))

/-- The three uptime figures of the public status page: 24h, 7d and 30d. -/
def statusUptimes (readings : List ReadingRow) (wsId : Nat) (now : Int) :
    Option ℤ × Option ℤ × Option ℤ :=
  (uptimeWindow readings wsId (now - 24 * 60 * 60 * 1000),
   uptimeWindow readings wsId (now - 7 * 24 * 60 * 60 * 1000),
   uptimeWindow readings wsId (now - 30 * 24 * 60 * 60 * 1000))

/-- The row limit of the history query: 12 readings per hour, capped at 1000. -/
def historyLimit (hours : Nat) : Nat := min (hours * 12) 1000

/-- GET v1 history: the workspace rows newest first, LIMIT historyLimit. -/
def historyQuery (readings : List ReadingRow) (wsId : Nat) (hours : Nat) : List ReadingRow :=
  (rowsDesc readings wsId).take (historyLimit hours)

/-! The invite consumption flow. -/

/-- One row of the workspace_invites table (token UNIQUE). -/
structure Invite where
  id : Nat
  workspaceId : Nat
  token : String
  usedAt : Option Int
  expiresAt : Int
deriving DecidableEq, Repr

/-- The possible responses of the invite accept route. -/
inductive AcceptOutcome
  | notLoggedIn
  | tokenRequired
  | invalidInvite
  | alreadyUsed
  | inviteExpired
  | alreadyMember
  | accepted
deriving DecidableEq, Repr

/-- Result of one accept call: response plus both tables after the call. -/
structure AcceptResult where
  outcome : AcceptOutcome
  invites : List Invite
  workspaces : List Workspace
deriving Repr

/-- UPDATE workspace_invites SET used_at = NOW() WHERE id = inviteId. -/
def markInviteUsed (invites : List Invite) (inviteId : Nat) (now : Int) : List Invite :=
  invites.map (fun i => if i.id = inviteId then { i with usedAt := some now } else i)

/-- UPDATE workspaces SET user_id = uid WHERE id = wsId. -/
def transferOwnership (workspaces : List Workspace) (wsId : Nat) (uid : Nat) : List Workspace :=
  workspaces.map (fun w => if w.id = wsId then { w with userId := some uid } else w)

/-- The invite accept route: session required, token required, token lookup,
used check before expiry check, then consume (both success branches mark the
invite used; only the non-member branch transfers ownership). sessionUser is
the user id the session email resolved to. -/
def acceptInvite (invites : List Invite) (workspaces : List Workspace)
    (sessionUser : Option Nat) (token : Option String) (now : Int) : AcceptResult :=
  match sessionUser with
  | none => ⟨AcceptOutcome.notLoggedIn, invites, workspaces⟩
  | some uid =>
    match token with
    | none => ⟨AcceptOutcome.tokenRequired, invites, workspaces⟩
    | some tok =>
      match invites.find? (fun i => i.token = tok) with
      | none => ⟨AcceptOutcome.invalidInvite, invites, workspaces⟩
      | some invite =>
        if invite.usedAt.isSome then ⟨AcceptOutcome.alreadyUsed, invites, workspaces⟩
        else if invite.expiresAt < now then ⟨AcceptOutcome.inviteExpired, invites, workspaces⟩
        else if workspaces.any (fun w => decide (w.id = invite.workspaceId) && decide (w.userId = some uid)) then
          ⟨AcceptOutcome.alreadyMember, markInviteUsed invites invite.id now, workspaces⟩
        else
          ⟨AcceptOutcome.accepted, markInviteUsed invites invite.id now,
            transferOwnership workspaces invite.workspaceId uid⟩

/-! The collector: model pricing, cost estimation, session stats, and the
best-effort OpenClaw sub-collections. -/

/-- Input and output rates per million tokens. -/
structure Pricing where
  inp : ℚ
  outp : ℚ
deriving DecidableEq, Repr

/-- MODEL_PRICING of the reporter, in object key order. -/
def MODEL_PRICING : List (String × Pricing) :=
  [("claude-opus-4-5", ⟨15, 75⟩),
   ("claude-sonnet-4-5", ⟨3, 15⟩),
   ("claude-sonnet-4", ⟨3, 15⟩),
   ("claude-haiku-3-5", ⟨1/4, 5/4⟩),
   ("gpt-4o", ⟨5/2, 10⟩),
   ("gpt-4o-mini", ⟨3/20, 3/5⟩),
   ("deepseek-v3", ⟨27/100, 11/10⟩),
   ("default", ⟨3, 15⟩)]

/-- JS String.prototype.includes: substring containment. -/
def strIncludes (s sub : String) : Bool := decide (sub.toList <:+: s.toList)

/-- Descending order on model counts, as used by the sort in calculateCosts. -/
def countDesc (a b : String × Nat) : Prop := b.2 ≤ a.2

instance : DecidableRel countDesc := fun a b => inferInstanceAs (Decidable (b.2 ≤ a.2))

instance : IsTotal (String × Nat) countDesc := ⟨fun a b => Nat.le_total b.2 a.2⟩

instance : IsTrans (String × Nat) countDesc := ⟨fun _ _ _ h h2 => Nat.le_trans h2 h⟩

/-- The model breakdown entries sorted by count descending. -/
def sortModelCounts (mb : List (String × Nat)) : List (String × Nat) :=
  mb.insertionSort countDesc

/-- The majority model: first entry of the count-descending sort, defaulting
to the default key on an empty breakdown. -/
def primaryModel (mb : List (String × Nat)) : String :=
  ((sortModelCounts mb).head?.map (fun e => e.1)).getD "default"

/-- The pricing key: first pricing table key contained in the primary model
name, else the default key. -/
def findModelKey (primary : String) : String :=
  ((MODEL_PRICING.map (fun e => e.1)).find? (fun k => strIncludes primary k)).getD "default"

/-- Pricing table lookup. -/
def pricingFor (key : String) : Pricing :=
  ((MODEL_PRICING.find? (fun e => e.1 = key)).map (fun e => e.2)).getD ⟨3, 15⟩

/-- Token counters aggregated over the sessions active today. -/
structure TokenStats where
  inputTokens : Nat
  outputTokens : Nat
  totalTokens : Nat
deriving DecidableEq, Repr

/-- Rounding a dollar amount to cents, via Math.round. -/
def round2 (q : ℚ) : ℚ := (jsRound (q * 100) : ℚ) / 100

/-- The pre-rounding today cost: token counts times the per-million rates of
the selected pricing tier. -/
def rawTodayCost (tokens : TokenStats) (mb : List (String × Nat)) : ℚ :=
  let pricing := pricingFor (findModelKey (primaryModel mb))
  (tokens.inputTokens : ℚ) / 1000000 * pricing.inp +
    (tokens.outputTokens : ℚ) / 1000000 * pricing.outp

/-- calculateCosts of the reporter: today cost from the majority model rates,
month cost extrapolated as today cost times the day of the month, both then
rounded to cents. -/
def calculateCosts (tokens : TokenStats) (mb : List (String × Nat)) (dayOfMonth : Nat) : CostsP :=
  let todayCost := rawTodayCost tokens mb
  let monthCost := todayCost * (dayOfMonth : ℚ)
  ⟨round2 todayCost, round2 monthCost⟩

/-- One entry of the local sessions.json state file. model collapses the
model and modelOverride fields the source reads in that order. -/
structure SessionEntry where
  updatedAt : Int
  inputTokens : Nat
  outputTokens : Nat
  totalTokens : Option Nat
  model : Option String
deriving DecidableEq, Repr

/-- The session aggregate the reporter builds before posting. -/
structure SessionData where
  active : Nat
  total : Nat
  tokens : TokenStats
  modelBreakdown : List (String × Nat)
deriving DecidableEq, Repr

/-- Bump the count of one model in the insertion-ordered breakdown map. -/
def bumpModel (mb : List (String × Nat)) (m : String) : List (String × Nat) :=
  if mb.any (fun e => e.1 = m) then
    mb.map (fun e => if e.1 = m then (e.1, e.2 + 1) else e)
  else mb ++ [(m, 1)]

/-- The model name of a session, defaulting to the unknown bucket. -/
def sessionModelName (s : SessionEntry) : String := s.model.getD "unknown"

/-- JS falsy-or on a count: zero or missing falls back to the default. -/
def jsOrNat (o : Option Nat) (d : Nat) : Nat :=
  match o with
  | some t => if t = 0 then d else t
  | none => d

/-- getSessionStats of the reporter: count every session, count as active the
ones updated in the last ten minutes, and accumulate tokens and the model
breakdown over the sessions updated after local midnight. -/
def getSessionStats (sessions : List SessionEntry) (now todayMs : Int) : SessionData :=
  sessions.foldl
    (fun acc s =>
      let acc1 := { acc with total := acc.total + 1 }
      let acc2 :=
        if now - 600000 < s.updatedAt then { acc1 with active := acc1.active + 1 } else acc1
      if todayMs < s.updatedAt then
        { acc2 with
          tokens :=
            ⟨acc2.tokens.inputTokens + s.inputTokens,
             acc2.tokens.outputTokens + s.outputTokens,
             acc2.tokens.totalTokens + jsOrNat s.totalTokens (s.inputTokens + s.outputTokens)⟩,
          modelBreakdown := bumpModel acc2.modelBreakdown (sessionModelName s) }
      else acc2)
    ⟨0, 0, ⟨0, 0, 0⟩, []⟩

/-- The zero default the reporter starts from and returns on any failure. -/
def defaultSessionData : SessionData := ⟨0, 0, ⟨0, 0, 0⟩, []⟩

/-- The session collection over the state file: an absent directory or file
returns the zero default, a parse failure is caught and returns the zero
default, and only a parsed file is aggregated. -/
def getSessionStatsFromFile (file : Option (Except Unit (List SessionEntry)))
    (now todayMs : Int) : SessionData :=
  match file with
  | none => defaultSessionData
  | some (Except.error _) => defaultSessionData
  | some (Except.ok sessions) => getSessionStats sessions now todayMs

/-- The sessions block the reporter puts into the payload. -/
def reporterPayloadSessions (file : Option (Except Unit (List SessionEntry)))
    (now todayMs : Int) : SessionsP :=
  let stats := getSessionStatsFromFile file now todayMs
  ⟨(stats.active : Int), (stats.total : Int)⟩

/-- One job of the cron config file; enabled counts unless literally false. -/
structure CronJobEntry where
  name : String
  enabled : Option Bool
deriving DecidableEq, Repr

/-- Enabled and total counts over the cron config jobs. -/
def cronStatsOf (jobs : List CronJobEntry) : Nat × Nat :=
  (jobs.countP (fun j => j.enabled ≠ some false), jobs.length)

/-- The universal reporter OpenClaw aggregate: session counts, cron counts and
the optional gateway liveness. -/
structure OCMetrics where
  sessions : Nat × Nat
  crons : Nat × Nat
  gateway : Option (Bool × Int)
deriving DecidableEq, Repr

/-- Active and total session counts of the universal reporter. -/
def countOCSessions (sessions : List SessionEntry) (now : Int) : Nat × Nat :=
  (sessions.countP (fun s => now - 600000 < s.updatedAt), sessions.length)

/-- Session counts from the state file: absent file keeps the zero default. -/
def sessionsFromFile (sf : Option (Except Unit (List SessionEntry))) (now : Int) : Nat × Nat :=
  match sf with
  | some (Except.ok l) => countOCSessions l now
  | _ => (0, 0)

/-- Cron counts from the cron config file: absent file keeps the zero default. -/
def cronsFromFile (cf : Option (Except Unit (List CronJobEntry))) : Nat × Nat :=
  match cf with
  | some (Except.ok jobs) => cronStatsOf jobs
  | _ => (0, 0)

/-- Gateway block from the state file startedAt value. -/
def gatewayFromState (startedAt : Option Int) (now : Int) : Option (Bool × Int) :=
  match startedAt with
  | some t => some (true, Int.fdiv (now - t) 1000)
  | none => none

/-- Gateway block from the gateway state file: absent file keeps none. -/
def gatewayFromFile (gf : Option (Except Unit (Option Int))) (now : Int) : Option (Bool × Int) :=
  match gf with
  | some (Except.ok st) => gatewayFromState st now
  | _ => none

/-- getOpenClawMetrics of the universal reporter: the three sub-collections
run inside one try, so a parse failure keeps the defaults accumulated so far,
while an absent file merely skips its own section. -/
def getOpenClawMetrics (sf : Option (Except Unit (List SessionEntry)))
    (cf : Option (Except Unit (List CronJobEntry)))
    (gf : Option (Except Unit (Option Int))) (now : Int) : OCMetrics :=
  match sf with
  | some (Except.error _) => ⟨(0, 0), (0, 0), none⟩
  | _ =>
    let sess := sessionsFromFile sf now
    match cf with
    | some (Except.error _) => ⟨sess, (0, 0), none⟩
    | _ =>
      let cr := cronsFromFile cf
      match gf with
      | some (Except.error _) => ⟨sess, cr, none⟩
      | _ => ⟨sess, cr, gatewayFromFile gf now⟩

/-! The in-memory storage variant: a process-local map keyed by api key. -/

/-- One session of the in-memory variant payload. -/
structure MemSession where
  key : String
  kind : String
  model : String
  tokensUsed : Nat
  tokensMax : Nat
  lastActivity : String
deriving DecidableEq, Repr

/-- One cron job of the in-memory variant payload. -/
structure MemCron where
  id : String
  name : String
  schedule : String
  enabled : Bool
deriving DecidableEq, Repr

/-- The in-memory variant report payload. -/
structure MemPayload where
  sessions : List MemSession
  crons : List MemCron
  timestamp : String
  agentId : String
deriving DecidableEq, Repr

/-- One stored entry: the payload and its arrival time. -/
structure MemEntry where
  payload : MemPayload
  receivedAt : Int
deriving DecidableEq, Repr

/-- The process-local reports map, in insertion order with unique keys. -/
abbrev MemStore := List (String × MemEntry)

/-- Map.prototype.set: replace in place when the key exists, else append. -/
def mapSet (m : MemStore) (k : String) (v : MemEntry) : MemStore :=
  if m.any (fun e => e.1 = k) then m.map (fun e => if e.1 = k then (k, v) else e)
  else m ++ [(k, v)]

/-- Map.prototype.get. -/
def mapGet (m : MemStore) (k : String) : Option MemEntry :=
  (m.find? (fun e => e.1 = k)).map (fun e => e.2)

/-- Result of one in-memory POST v1 report call. -/
structure MemPostResult where
  status : Nat
  success : Bool
  store : MemStore
deriving Repr

/-- The in-memory POST v1 report handler: bearer header required, a non-empty
key accepted, the parsed payload stored over whatever the key held before. -/
def memPostReport (store : MemStore) (auth : Option String)
    (body : Except Unit MemPayload) (now : Int) : MemPostResult :=
  match bearerToken auth with
  | none => ⟨401, false, store⟩
  | some apiKey =>
    if apiKey = "" then ⟨401, false, store⟩
    else
      match body with
      | Except.error _ => ⟨400, false, store⟩
      | Except.ok p => ⟨200, true, mapSet store apiKey ⟨p, now⟩⟩

/-- The in-memory dashboard query: the stored entry of the key, with the ten
minute staleness flag. -/
def memDashboard (store : MemStore) (k : String) (now : Int) :
    Option (MemPayload × Int × Bool) :=
  (mapGet store k).map (fun e => (e.payload, e.receivedAt, decide (now - e.receivedAt < 600000)))

/-- The in-memory sessions query. -/
def memSessions (store : MemStore) (k : String) : List MemSession :=
  ((mapGet store k).map (fun e => e.payload.sessions)).getD []

/-- The in-memory crons query. -/
def memCrons (store : MemStore) (k : String) : List MemCron :=
  ((mapGet store k).map (fun e => e.payload.crons)).getD []

/-- The key column of the in-memory store. -/
def memKeys (m : MemStore) : List String := m.map (fun e => e.1)

/-! Concrete fixtures used to instantiate the theorems. -/

/-- A webhook world that accepts every call. -/
def wfOk : String → Except Unit Unit := fun _ => Except.ok ()

/-- A webhook world that rejects every call. -/
def wfFail : String → Except Unit Unit := fun _ => Except.error ()

/-- A report payload with every block absent. -/
def emptyReportPayload : ReportPayload :=
  ⟨none, none, none, none, none, none, none, none, none, none, none, none⟩

/-- A workspace with cost threshold 10, downtime minutes 5 and a webhook. -/
def fixtureWorkspace : Workspace :=
  ⟨1, some 1, "Main", "pk_live", none, some 10, some 5, some "https://hooks.example/alert"⟩

/-- A payload reporting the gateway online. -/
def onlinePayload : ReportPayload :=
  { emptyReportPayload with gateway := some ⟨true, 3600⟩ }

/-- A payload reporting the gateway offline. -/
def offlinePayload : ReportPayload :=
  { emptyReportPayload with gateway := some ⟨false, 0⟩ }

/-- A payload with a 12 dollar today cost. -/
def costlyPayload : ReportPayload :=
  { emptyReportPayload with costs := some ⟨12, 36⟩ }

/-- A workspace with downtime threshold n minutes and a webhook configured. -/
def scenarioWs (n : Int) : Workspace :=
  ⟨1, some 1, "Main", "pk_live", none, none, some n, some "https://hooks.example/alert"⟩

/-- The spec downtime scenario with threshold n: an online report at time 0,
then an offline report 11 minutes (660000 ms) later. Returns the second call. -/
def downtimeScenario (n : Int) : ReportResult :=
  let r1 := handleReport [scenarioWs n] [] (some "Bearer pk_live") (Except.ok onlinePayload) 0 wfOk
  handleReport [scenarioWs n] r1.readings (some "Bearer pk_live") (Except.ok offlinePayload) 660000 wfOk

/-- Count of one model in the breakdown map, zero when absent. -/
def countModel (mb : List (String × Nat)) (m : String) : Nat :=
  ((mb.find? (fun e => e.1 = m)).map (fun e => e.2)).getD 0

/-- An unconsumed invite for workspace 1 expiring at time 1000. -/
def fixtureInvite : Invite := ⟨1, 1, "inv_t", none, 1000⟩

/-- Two readings of workspace 1: one online at time 10, one offline at 20. -/
def demoReadings : List ReadingRow :=
  [insertReading 1 10 onlinePayload, insertReading 1 20 offlinePayload]

/-- A first in-memory payload. -/
def memPayloadA : MemPayload := ⟨[], [], "t1", "agent"⟩

/-- A second in-memory payload carrying one cron job. -/
def memPayloadB : MemPayload := ⟨[], [⟨"1", "job", "five-min", true⟩], "t2", "agent"⟩

/-! Helper lemmas. -/

theorem jsRound_eq (q : ℚ) : jsRound q = ⌊q + 1/2⌋ := by
  unfold jsRound
  rw [Rat.floor_def', Rat.floor_def]

theorem dispatchIfFired_of_truthy (f : Bool) (url : Option String)
    (wf : String → Except Unit Unit) (h : jsTruthyStr url = true) :
    dispatchIfFired f url wf = f := by
  cases url with
  | none => simp [jsTruthyStr] at h
  | some u =>
    simp only [jsTruthyStr, decide_eq_true_eq] at h
    cases f <;> simp [dispatchIfFired, jsTruthyStr, h, catchLogged]

theorem dispatchIfFired_indep (f : Bool) (url : Option String)
    (wf wf2 : String → Except Unit Unit) :
    dispatchIfFired f url wf = dispatchIfFired f url wf2 := by
  cases f <;> cases url <;> simp [dispatchIfFired, catchLogged]

theorem dispatchIfFired_none (f : Bool) (wf : String → Except Unit Unit) :
    dispatchIfFired f none wf = false := by
  cases f <;> simp [dispatchIfFired]

theorem handleReport_ok (workspaces : List Workspace) (readings : List ReadingRow)
    (auth : Option String) (now : Int) (wf : String → Except Unit Unit)
    (key : String) (ws : Workspace) (p : ReportPayload)
    (hauth : bearerToken auth = some key)
    (hws : getWorkspaceFromKey workspaces key = some ws) :
    handleReport workspaces readings auth (Except.ok p) now wf =
      ⟨200, true, readings ++ [insertReading ws.id now p],
        dispatchIfFired (costAlertCond ws p) ws.slackWebhookUrl wf,
        dispatchIfFired (downtimeAlertCond ws (readings ++ [insertReading ws.id now p]) now)
          ws.slackWebhookUrl wf⟩ := by
  simp [handleReport, hauth, hws]

/-! Claim theorems. -/

/-- C1: for every report inserted into a workspace with a configured cost
threshold t and a webhook URL, the cost alert notification is dispatched iff
the today cost exceeds t, on every insertion, independent of prior readings. -/
theorem cost_alert_iff_threshold_exceeded (workspaces : List Workspace)
    (readings : List ReadingRow) (auth : Option String) (now : Int)
    (wf : String → Except Unit Unit) (key : String) (ws : Workspace)
    (p : ReportPayload) (t : ℚ) (c : CostsP)
    (hauth : bearerToken auth = some key)
    (hws : getWorkspaceFromKey workspaces key = some ws)
    (hthr : ws.alertCostThreshold = some t)
    (hhook : jsTruthyStr ws.slackWebhookUrl = true)
    (hcosts : p.costs = some c) :
    ((handleReport workspaces readings auth (Except.ok p) now wf).costDispatched = true ↔
      t < c.today) ∧
    (handleReport workspaces readings auth (Except.ok p) now wf).status = 200 ∧
    (handleReport workspaces readings auth (Except.ok p) now wf).readings =
      readings ++ [insertReading ws.id now p] ∧
    ∀ readings2 : List ReadingRow,
      (handleReport workspaces readings2 auth (Except.ok p) now wf).costDispatched =
        (handleReport workspaces readings auth (Except.ok p) now wf).costDispatched := by
  have hc : costAlertCond ws p = decide (t < c.today) := by
    simp [costAlertCond, hthr, hcosts]
  refine ⟨?_, ?_, ?_, ?_⟩
  · rw [handleReport_ok workspaces readings auth now wf key ws p hauth hws]
    simp [dispatchIfFired_of_truthy _ _ _ hhook, hc]
  · rw [handleReport_ok workspaces readings auth now wf key ws p hauth hws]
  · rw [handleReport_ok workspaces readings auth now wf key ws p hauth hws]
  · intro readings2
    rw [handleReport_ok workspaces readings auth now wf key ws p hauth hws,
      handleReport_ok workspaces readings2 auth now wf key ws p hauth hws]

/-- C1 witness: a 12 dollar today cost against a 10 dollar threshold. -/
theorem cost_alert_iff_threshold_exceeded_witness :
    bearerToken (some "Bearer pk_live") = some "pk_live" ∧
    fixtureWorkspace.alertCostThreshold = some 10 ∧
    ((handleReport [fixtureWorkspace] [] (some "Bearer pk_live")
        (Except.ok costlyPayload) 0 wfOk).costDispatched = true ↔ (10 : ℚ) < 12) :=
  ⟨by decide, rfl,
    (cost_alert_iff_threshold_exceeded [fixtureWorkspace] [] (some "Bearer pk_live") 0 wfOk
      "pk_live" fixtureWorkspace costlyPayload 10 ⟨12, 36⟩
      (by decide) (by decide) rfl (by decide) rfl).1⟩

/-- C5 counterexample: an accepted submission whose payload omits the errors
block stores the error count as 0, not as null, refuting the claim that every
unsupplied optional field is stored as null. -/
theorem report_null_fields_counterexample :
    (handleReport [fixtureWorkspace] [] (some "Bearer pk_live")
        (Except.ok emptyReportPayload) 1000 wfOk).status = 200 ∧
    emptyReportPayload.errors = none ∧
    (handleReport [fixtureWorkspace] [] (some "Bearer pk_live")
        (Except.ok emptyReportPayload) 1000 wfOk).readings =
      [insertReading 1 1000 emptyReportPayload] ∧
    (insertReading 1 1000 emptyReportPayload).errorsCount = some 0 ∧
    (insertReading 1 1000 emptyReportPayload).errorsCount ≠ none :=
  ⟨by decide, rfl, by decide, rfl, by decide⟩

/-- C5 (amended): a missing or unresolvable bearer credential yields 401, a
malformed body yields 400, and a valid credential with a well-formed payload
yields 200 success after appending exactly one Reading scoped to the resolved
workspace, with unsupplied optional fields stored as null, except the error
count which is stored as 0 and the timestamp which defaults to the server
time. -/
theorem report_statuses_and_insert (workspaces : List Workspace)
    (readings : List ReadingRow) (auth : Option String)
    (body : Except Unit ReportPayload) (now : Int)
    (wf : String → Except Unit Unit) :
    (bearerToken auth = none →
      handleReport workspaces readings auth body now wf = ⟨401, false, readings, false, false⟩) ∧
    (∀ key, bearerToken auth = some key → getWorkspaceFromKey workspaces key = none →
      handleReport workspaces readings auth body now wf = ⟨401, false, readings, false, false⟩) ∧
    (∀ key ws, bearerToken auth = some key → getWorkspaceFromKey workspaces key = some ws →
      (∀ e, body = Except.error e →
        handleReport workspaces readings auth body now wf = ⟨400, false, readings, false, false⟩) ∧
      (∀ p, body = Except.ok p →
        (handleReport workspaces readings auth body now wf).status = 200 ∧
        (handleReport workspaces readings auth body now wf).success = true ∧
        (handleReport workspaces readings auth body now wf).readings =
          readings ++ [insertReading ws.id now p] ∧
        (insertReading ws.id now p).workspaceId = ws.id)) ∧
    (∀ wsId : Nat, ∀ p : ReportPayload,
      (p.timestamp = none → (insertReading wsId now p).timestamp = now) ∧
      (p.gateway = none → (insertReading wsId now p).gatewayOnline = none ∧
        (insertReading wsId now p).gatewayUptime = none) ∧
      (p.sessions = none → (insertReading wsId now p).sessionsActive = none ∧
        (insertReading wsId now p).sessionsTotal = none) ∧
      (p.crons = none → (insertReading wsId now p).cronsEnabled = none ∧
        (insertReading wsId now p).cronsTotal = none) ∧
      (p.costs = none → (insertReading wsId now p).costToday = none ∧
        (insertReading wsId now p).costMonth = none) ∧
      (p.tokens = none → (insertReading wsId now p).tokensInput = none ∧
        (insertReading wsId now p).tokensOutput = none) ∧
      (p.modelBreakdown = none → (insertReading wsId now p).modelBreakdown = none) ∧
      (p.system = none →
        (insertReading wsId now p).systemHostname = none ∧
        (insertReading wsId now p).systemPlatform = none ∧
        (insertReading wsId now p).systemArch = none ∧
        (insertReading wsId now p).systemCpuCount = none ∧
        (insertReading wsId now p).systemCpuUsagePercent = none ∧
        (insertReading wsId now p).systemMemoryTotalMb = none ∧
        (insertReading wsId now p).systemMemoryUsedPercent = none ∧
        (insertReading wsId now p).systemMemoryFreeMb = none ∧
        (insertReading wsId now p).systemDiskTotalGb = none ∧
        (insertReading wsId now p).systemDiskUsedPercent = none ∧
        (insertReading wsId now p).systemDiskFreeGb = none ∧
        (insertReading wsId now p).systemLocalIp = none ∧
        (insertReading wsId now p).systemUptime = none ∧
        (insertReading wsId now p).systemLoadAvg = none) ∧
      (p.endpoints = none → (insertReading wsId now p).endpoints = none) ∧
      (p.processes = none → (insertReading wsId now p).processes = none) ∧
      (p.custom = none → (insertReading wsId now p).customMetrics = none) ∧
      (p.errors = none → (insertReading wsId now p).errorsCount = some 0 ∧
        (insertReading wsId now p).lastErrorMessage = none ∧
        (insertReading wsId now p).lastErrorTimestamp = none)) := by
  refine ⟨?_, ?_, ?_, ?_⟩
  · intro h
    simp [handleReport, h]
  · intro key h1 h2
    simp [handleReport, h1, h2]
  · intro key ws h1 h2
    constructor
    · intro e he
      subst he
      simp [handleReport, h1, h2]
    · intro p hp
      subst hp
      rw [handleReport_ok workspaces readings auth now wf key ws p h1 h2]
      exact ⟨rfl, rfl, rfl, rfl⟩
  · intro wsId p
    refine ⟨?_, ?_, ?_, ?_, ?_, ?_, ?_, ?_, ?_, ?_, ?_, ?_⟩ <;>
      intro h <;> simp [insertReading, h]

/-- C5 witness: the three statuses at concrete inputs. -/
theorem report_statuses_and_insert_witness :
    bearerToken none = none ∧
    (handleReport [fixtureWorkspace] [] none (Except.ok emptyReportPayload) 0 wfOk) =
      ⟨401, false, [], false, false⟩ ∧
    (handleReport [fixtureWorkspace] [] (some "Bearer pk_live")
        (Except.error ()) 0 wfOk) = ⟨400, false, [], false, false⟩ ∧
    (handleReport [fixtureWorkspace] [] (some "Bearer pk_live")
        (Except.ok emptyReportPayload) 0 wfOk).status = 200 :=
  ⟨rfl,
    (report_statuses_and_insert [fixtureWorkspace] [] none
      (Except.ok emptyReportPayload) 0 wfOk).1 rfl,
    ((report_statuses_and_insert [fixtureWorkspace] [] (some "Bearer pk_live")
      (Except.error ()) 0 wfOk).2.2.1 "pk_live" fixtureWorkspace (by decide) (by decide)).1 () rfl,
    (((report_statuses_and_insert [fixtureWorkspace] [] (some "Bearer pk_live")
      (Except.ok emptyReportPayload) 0 wfOk).2.2.1 "pk_live" fixtureWorkspace
      (by decide) (by decide)).2 emptyReportPayload rfl).1⟩

/-- C6: for an accepted submission the response is 200 success for every
webhook world, two webhook worlds produce identical results, and a missing
webhook URL skips dispatch without an error. -/
theorem report_success_indep_of_webhook (workspaces : List Workspace)
    (readings : List ReadingRow) (auth : Option String) (now : Int)
    (wf wf2 : String → Except Unit Unit) (key : String) (ws : Workspace)
    (p : ReportPayload)
    (hauth : bearerToken auth = some key)
    (hws : getWorkspaceFromKey workspaces key = some ws) :
    (handleReport workspaces readings auth (Except.ok p) now wf).status = 200 ∧
    (handleReport workspaces readings auth (Except.ok p) now wf).success = true ∧
    handleReport workspaces readings auth (Except.ok p) now wf =
      handleReport workspaces readings auth (Except.ok p) now wf2 ∧
    (ws.slackWebhookUrl = none →
      (handleReport workspaces readings auth (Except.ok p) now wf).costDispatched = false ∧
      (handleReport workspaces readings auth (Except.ok p) now wf).downtimeDispatched = false) := by
  rw [handleReport_ok workspaces readings auth now wf key ws p hauth hws,
    handleReport_ok workspaces readings auth now wf2 key ws p hauth hws]
  refine ⟨rfl, rfl, ?_, ?_⟩
  · rw [dispatchIfFired_indep _ _ wf wf2, dispatchIfFired_indep _ _ wf wf2]
  · intro h
    rw [h]
    exact ⟨dispatchIfFired_none _ wf, dispatchIfFired_none _ wf⟩

/-- C6 witness: a rejecting webhook world still yields 200 success. -/
theorem report_success_indep_of_webhook_witness :
    (handleReport [fixtureWorkspace] [] (some "Bearer pk_live")
        (Except.ok costlyPayload) 0 wfFail).status = 200 ∧
    handleReport [fixtureWorkspace] [] (some "Bearer pk_live")
        (Except.ok costlyPayload) 0 wfFail =
      handleReport [fixtureWorkspace] [] (some "Bearer pk_live")
        (Except.ok costlyPayload) 0 wfOk :=
  ⟨(report_success_indep_of_webhook [fixtureWorkspace] [] (some "Bearer pk_live") 0
      wfFail wfOk "pk_live" fixtureWorkspace costlyPayload (by decide) (by decide)).1,
    (report_success_indep_of_webhook [fixtureWorkspace] [] (some "Bearer pk_live") 0
      wfFail wfOk "pk_live" fixtureWorkspace costlyPayload (by decide) (by decide)).2.2.1⟩

/-- C4: the history query returns at most min(hours times 12, 1000) rows,
never more than 1000, ordered newest first by timestamp. -/
theorem history_capped_and_newest_first (readings : List ReadingRow) (wsId : Nat)
    (hours : Nat) :
    (historyQuery readings wsId hours).length ≤ min (hours * 12) 1000 ∧
    (historyQuery readings wsId hours).length ≤ 1000 ∧
    (historyQuery readings wsId hours).Pairwise
      (fun a b => b.timestamp ≤ a.timestamp) := by
  refine ⟨?_, ?_, ?_⟩
  · calc (historyQuery readings wsId hours).length
        = min (historyLimit hours) (rowsDesc readings wsId).length := List.length_take _ _
      _ ≤ historyLimit hours := Nat.min_le_left _ _
      _ = min (hours * 12) 1000 := rfl
  · calc (historyQuery readings wsId hours).length
        = min (historyLimit hours) (rowsDesc readings wsId).length := List.length_take _ _
      _ ≤ historyLimit hours := Nat.min_le_left _ _
      _ ≤ 1000 := Nat.min_le_right _ _
  · have hs : (rowsDesc readings wsId).Pairwise tsDesc :=
      List.sorted_insertionSort tsDesc _
    exact List.Pairwise.sublist (List.take_sublist _ _) hs

/-- C3: for every query window, the uptime percentage is null exactly when
the window holds zero readings (so the ratio is never formed over zero), and
any returned value is the online over total ratio times 100 rounded half up,
lying in the interval from 0 to 100; the status page computes exactly this
over the 24h, 7d and 30d windows. -/
theorem uptime_percentage_bounds (readings : List ReadingRow) (wsId : Nat)
    (cutoff now : Int) :
    (uptimeWindow readings wsId cutoff = none ↔ windowRows readings wsId cutoff = []) ∧
    (∀ v : ℤ, uptimeWindow readings wsId cutoff = some v →
      v = ⌊((onlineCount (windowRows readings wsId cutoff) : ℚ) /
            ((windowRows readings wsId cutoff).length : ℚ) * 100) + 1/2⌋ ∧
      0 ≤ v ∧ v ≤ 100) ∧
    statusUptimes readings wsId now =
      (uptimeWindow readings wsId (now - 24 * 60 * 60 * 1000),
       uptimeWindow readings wsId (now - 7 * 24 * 60 * 60 * 1000),
       uptimeWindow readings wsId (now - 30 * 24 * 60 * 60 * 1000)) := by
  set w := windowRows readings wsId cutoff with hw
  refine ⟨?_, ?_, rfl⟩
  · unfold uptimeWindow calcUptime
    rw [← hw]
    by_cases ht : 0 < w.length
    · rw [if_pos ht]
      simp only [reduceCtorEq, false_iff]
      intro hnil
      rw [hnil] at ht
      simp at ht
    · rw [if_neg ht]
      simp only [true_iff]
      have : w.length = 0 := Nat.eq_zero_of_not_pos ht
      exact List.length_eq_zero.mp this
  · intro v hv
    unfold uptimeWindow calcUptime at hv
    rw [← hw] at hv
    by_cases ht : 0 < w.length
    · rw [if_pos ht] at hv
      have hv2 : v = jsRound ((onlineCount w : ℚ) / (w.length : ℚ) * 100) :=
        (Option.some.inj hv).symm
      have hol : onlineCount w ≤ w.length := List.countP_le_length _
      have htQ : (0 : ℚ) < (w.length : ℚ) := by exact_mod_cast ht
      have hratio : (onlineCount w : ℚ) / (w.length : ℚ) ≤ 1 :=
        div_le_one_of_le₀ (by exact_mod_cast hol) (le_of_lt htQ)
      have hratio0 : (0 : ℚ) ≤ (onlineCount w : ℚ) / (w.length : ℚ) :=
        div_nonneg (Nat.cast_nonneg _) (Nat.cast_nonneg _)
      have hq0 : (0 : ℚ) ≤ (onlineCount w : ℚ) / (w.length : ℚ) * 100 := by positivity
      have hq100 : (onlineCount w : ℚ) / (w.length : ℚ) * 100 ≤ 100 := by
        calc (onlineCount w : ℚ) / (w.length : ℚ) * 100 ≤ 1 * 100 :=
              mul_le_mul_of_nonneg_right hratio (by norm_num)
          _ = 100 := by norm_num
      refine ⟨by rw [hv2, jsRound_eq], ?_, ?_⟩
      · rw [hv2, jsRound_eq]
        exact Int.le_floor.mpr (by push_cast; linarith)
      · rw [hv2, jsRound_eq]
        calc ⌊(onlineCount w : ℚ) / (w.length : ℚ) * 100 + 1/2⌋
            ≤ ⌊(100 : ℚ) + 1/2⌋ := Int.floor_le_floor (by linarith)
          _ = 100 := by norm_num [Int.floor_eq_iff]
    · rw [if_neg ht] at hv
      cases hv

theorem mem_rowsDesc {R : List ReadingRow} {wsId : Nat} {r : ReadingRow} :
    r ∈ rowsDesc R wsId ↔ r ∈ R ∧ r.workspaceId = wsId := by
  unfold rowsDesc
  rw [List.mem_insertionSort]
  simp [List.mem_filter]

theorem mem_recentReadings {R : List ReadingRow} {wsId : Nat} {cutoff : Int}
    {r : ReadingRow} :
    r ∈ recentReadings R wsId cutoff ↔
      r ∈ R ∧ r.workspaceId = wsId ∧ cutoff < r.timestamp := by
  unfold recentReadings
  rw [List.mem_insertionSort]
  simp only [List.mem_filter, decide_eq_true_eq]
  tauto

theorem head_of_sorted_unique_max {l : List ReadingRow} (hs : l.Sorted tsDesc)
    {x : ReadingRow} (hx : x ∈ l)
    (hmax : ∀ y ∈ l, y ≠ x → y.timestamp < x.timestamp) : l.head? = some x := by
  cases l with
  | nil => cases hx
  | cons a t =>
    by_cases hax : a = x
    · rw [hax]
      rfl
    · have ha : a.timestamp < x.timestamp := hmax a (List.mem_cons_self a t) hax
      have hxt : x ∈ t := by
        rcases List.mem_cons.mp hx with h | h
        · exact absurd h.symm hax
        · exact h
      have hle : tsDesc a x := List.rel_of_sorted_cons hs x hxt
      unfold tsDesc at hle
      omega

/-- C2: after a report insertion (with the server-assigned timestamp) for a
workspace with a positive configured downtime minutes value n and a webhook,
the downtime alert is dispatched iff the most recent reading of the workspace
is offline and no reading in the trailing n minute window is online; in the
spec scenario of two reports 11 minutes apart with no online reading between
them, the second report fires for n equal 5 and does not for n equal 15. -/
theorem downtime_alert_iff_window_offline (workspaces : List Workspace)
    (readings : List ReadingRow) (auth : Option String) (now : Int)
    (wf : String → Except Unit Unit) (key : String) (ws : Workspace)
    (p : ReportPayload) (n : Int)
    (hauth : bearerToken auth = some key)
    (hws : getWorkspaceFromKey workspaces key = some ws)
    (hmin : ws.alertDowntimeMinutes = some n)
    (hn : 0 < n)
    (hhook : jsTruthyStr ws.slackWebhookUrl = true)
    (hts : p.timestamp = none)
    (hprior : ∀ r ∈ readings, r.workspaceId = ws.id → r.timestamp < now) :
    (handleReport workspaces readings auth (Except.ok p) now wf).status = 200 ∧
    mostRecentReading (handleReport workspaces readings auth (Except.ok p) now wf).readings
      ws.id = some (insertReading ws.id now p) ∧
    ((handleReport workspaces readings auth (Except.ok p) now wf).downtimeDispatched = true ↔
      (jsTruthyBool (insertReading ws.id now p).gatewayOnline = false ∧
       ∀ r ∈ (handleReport workspaces readings auth (Except.ok p) now wf).readings,
         r.workspaceId = ws.id → now - n * 60000 < r.timestamp →
           jsTruthyBool r.gatewayOnline = false)) ∧
    (downtimeScenario 5).downtimeDispatched = true ∧
    (downtimeScenario 15).downtimeDispatched = false := by
  rw [handleReport_ok workspaces readings auth now wf key ws p hauth hws]
  set row := insertReading ws.id now p with hrowdef
  have hrow_ts : row.timestamp = now := by
    simp [hrowdef, insertReading, hts]
  have hrow_ws : row.workspaceId = ws.id := rfl
  set R2 : List ReadingRow := readings ++ [row] with hR2def
  have hR2 : ∀ r ∈ R2, r.workspaceId = ws.id → r ≠ row → r.timestamp < now := by
    intro r hr hrws hne
    rcases List.mem_append.mp hr with h | h
    · exact hprior r h hrws
    · exact absurd (List.mem_singleton.mp h) hne
  have hmax : ∀ l : List ReadingRow, (∀ y ∈ l, y ∈ R2 ∧ y.workspaceId = ws.id) →
      ∀ y ∈ l, y ≠ row → y.timestamp < row.timestamp := by
    intro l hl y hy hne
    rw [hrow_ts]
    exact hR2 y (hl y hy).1 (hl y hy).2 hne
  have hn0 : ¬ n = 0 := by omega
  have hcut : now - n * 60000 < now := by
    have : 0 < n * 60000 := by positivity
    omega
  have hrowmem : row ∈ recentReadings R2 ws.id (now - n * 60000) :=
    mem_recentReadings.mpr ⟨by simp [hR2def], hrow_ws, by rw [hrow_ts]; exact hcut⟩
  have hhead : (recentReadings R2 ws.id (now - n * 60000)).head? = some row := by
    apply head_of_sorted_unique_max (List.sorted_insertionSort tsDesc _) hrowmem
    exact hmax _ (fun y hy =>
      ⟨(mem_recentReadings.mp hy).1, (mem_recentReadings.mp hy).2.1⟩)
  obtain ⟨rest, hrec⟩ : ∃ rest,
      recentReadings R2 ws.id (now - n * 60000) = row :: rest := by
    cases hrl : recentReadings R2 ws.id (now - n * 60000) with
    | nil => rw [hrl] at hhead; cases hhead
    | cons a t =>
      rw [hrl] at hhead
      exact ⟨t, by rw [Option.some.inj hhead]⟩
  have hcond : downtimeAlertCond ws R2 now =
      (if jsTruthyBool row.gatewayOnline then false
       else decide (∀ r ∈ row :: rest, jsTruthyBool r.gatewayOnline = false)) := by
    simp only [downtimeAlertCond, hmin]
    rw [if_neg hn0, hrec]
    rfl
  have hiff1 : (∀ r ∈ row :: rest, jsTruthyBool r.gatewayOnline = false) ↔
      (∀ r ∈ R2, r.workspaceId = ws.id → now - n * 60000 < r.timestamp →
        jsTruthyBool r.gatewayOnline = false) := by
    rw [← hrec]
    constructor
    · intro hall r hr hrws hrts
      exact hall r (mem_recentReadings.mpr ⟨hr, hrws, hrts⟩)
    · intro hall r hr
      have hm := mem_recentReadings.mp hr
      exact hall r hm.1 hm.2.1 hm.2.2
  refine ⟨rfl, ?_, ?_, by decide, by decide⟩
  · show (rowsDesc R2 ws.id).head? = some row
    apply head_of_sorted_unique_max (List.sorted_insertionSort tsDesc _)
    · exact mem_rowsDesc.mpr ⟨by simp [hR2def], hrow_ws⟩
    · exact hmax _ (fun y hy => ⟨(mem_rowsDesc.mp hy).1, (mem_rowsDesc.mp hy).2⟩)
  · show dispatchIfFired (downtimeAlertCond ws R2 now) ws.slackWebhookUrl wf = true ↔ _
    rw [dispatchIfFired_of_truthy _ _ _ hhook, hcond]
    by_cases hon : jsTruthyBool row.gatewayOnline = true
    · rw [if_pos hon]
      simp [hon]
    · have hon2 : jsTruthyBool row.gatewayOnline = false := by
        cases h : jsTruthyBool row.gatewayOnline
        · rfl
        · exact absurd h hon
      rw [if_neg hon, decide_eq_true_eq]
      constructor
      · intro h12
        exact ⟨hon2, hiff1.mp h12⟩
      · intro hr
        exact hiff1.mpr hr.2

/-- C2 witness: the second report of the spec scenario with n equal 5. -/
theorem downtime_alert_iff_window_offline_witness :
    (0 : ℤ) < 5 ∧
    (handleReport [scenarioWs 5]
      (handleReport [scenarioWs 5] [] (some "Bearer pk_live")
        (Except.ok onlinePayload) 0 wfOk).readings
      (some "Bearer pk_live") (Except.ok offlinePayload) 660000 wfOk).status = 200 ∧
    mostRecentReading
      (handleReport [scenarioWs 5]
        (handleReport [scenarioWs 5] [] (some "Bearer pk_live")
          (Except.ok onlinePayload) 0 wfOk).readings
        (some "Bearer pk_live") (Except.ok offlinePayload) 660000 wfOk).readings 1 =
      some (insertReading 1 660000 offlinePayload) := by
  have h := downtime_alert_iff_window_offline [scenarioWs 5]
    (handleReport [scenarioWs 5] [] (some "Bearer pk_live")
      (Except.ok onlinePayload) 0 wfOk).readings
    (some "Bearer pk_live") 660000 wfOk "pk_live" (scenarioWs 5) offlinePayload 5
    (by decide) (by decide) rfl (by decide) (by decide) rfl (by decide)
  exact ⟨by decide, h.1, h.2.1⟩

theorem find_token_markInviteUsed (invites : List Invite) (tok : String)
    (invite : Invite) (now : Int)
    (h : invites.find? (fun i => i.token = tok) = some invite) :
    (markInviteUsed invites invite.id now).find? (fun i => i.token = tok) =
      some { invite with usedAt := some now } := by
  induction invites with
  | nil => simp at h
  | cons a t ih =>
    by_cases ha : a.token = tok
    · rw [List.find?_cons_of_pos _ (by simp [ha])] at h
      have hai : a = invite := Option.some.inj h
      subst hai
      unfold markInviteUsed
      rw [List.map_cons, if_pos rfl]
      exact List.find?_cons_of_pos _ (by simp [ha])
    · rw [List.find?_cons_of_neg _ (by simp [ha])] at h
      unfold markInviteUsed
      rw [List.map_cons]
      have htok : (if a.id = invite.id then { a with usedAt := some now } else a).token
          = a.token := by
        by_cases hid : a.id = invite.id
        · rw [if_pos hid]
        · rw [if_neg hid]
      rw [List.find?_cons_of_neg _ (by simp [htok, ha])]
      exact ih h

/-- C7: an invite is consumable at most once and only before its expiry: a
successful accept requires the invite to be unused and unexpired and stamps
its used-at time, any later accept of the same token returns already used,
an already used invite yields already used, and an expired invite is never
accepted regardless of its use state. -/
theorem invite_single_use_and_expiry (invites : List Invite)
    (workspaces : List Workspace) (uid : Nat) (tok : String) (now : Int)
    (invite : Invite)
    (hfind : invites.find? (fun i => i.token = tok) = some invite) :
    (((acceptInvite invites workspaces (some uid) (some tok) now).outcome =
        AcceptOutcome.accepted ∨
      (acceptInvite invites workspaces (some uid) (some tok) now).outcome =
        AcceptOutcome.alreadyMember) →
      invite.usedAt = none ∧ ¬ invite.expiresAt < now ∧
      (acceptInvite invites workspaces (some uid) (some tok) now).invites.find?
        (fun i => i.token = tok) = some { invite with usedAt := some now } ∧
      ∀ (uid2 : Nat) (now2 : Int) (wss2 : List Workspace),
        (acceptInvite (acceptInvite invites workspaces (some uid) (some tok) now).invites
          wss2 (some uid2) (some tok) now2).outcome = AcceptOutcome.alreadyUsed) ∧
    (invite.usedAt.isSome →
      (acceptInvite invites workspaces (some uid) (some tok) now).outcome =
        AcceptOutcome.alreadyUsed ∧
      (acceptInvite invites workspaces (some uid) (some tok) now).invites = invites) ∧
    (invite.expiresAt < now →
      (acceptInvite invites workspaces (some uid) (some tok) now).outcome ≠
        AcceptOutcome.accepted ∧
      (acceptInvite invites workspaces (some uid) (some tok) now).outcome ≠
        AcceptOutcome.alreadyMember) := by
  have hstep : acceptInvite invites workspaces (some uid) (some tok) now =
      (if invite.usedAt.isSome then ⟨AcceptOutcome.alreadyUsed, invites, workspaces⟩
       else if invite.expiresAt < now then
         ⟨AcceptOutcome.inviteExpired, invites, workspaces⟩
       else if workspaces.any (fun w =>
           decide (w.id = invite.workspaceId) && decide (w.userId = some uid)) then
         ⟨AcceptOutcome.alreadyMember, markInviteUsed invites invite.id now, workspaces⟩
       else ⟨AcceptOutcome.accepted, markInviteUsed invites invite.id now,
         transferOwnership workspaces invite.workspaceId uid⟩) := by
    simp only [acceptInvite, hfind]
  by_cases hused : invite.usedAt.isSome
  · rw [hstep, if_pos hused]
    refine ⟨?_, fun _ => ⟨rfl, rfl⟩, fun _ => ⟨by simp, by simp⟩⟩
    intro hsucc
    rcases hsucc with h | h <;> cases h
  · rw [hstep, if_neg hused]
    by_cases hexp : invite.expiresAt < now
    · rw [if_pos hexp]
      refine ⟨?_, fun hu => absurd hu hused, fun _ => ⟨by simp, by simp⟩⟩
      intro hsucc
      rcases hsucc with h | h <;> cases h
    · rw [if_neg hexp]
      have hnone : invite.usedAt = none := Option.not_isSome_iff_eq_none.mp hused
      have hmarked := find_token_markInviteUsed invites tok invite now hfind
      have hsecond : ∀ (uid2 : Nat) (now2 : Int) (wss2 : List Workspace),
          (acceptInvite (markInviteUsed invites invite.id now)
            wss2 (some uid2) (some tok) now2).outcome = AcceptOutcome.alreadyUsed := by
        intro uid2 now2 wss2
        simp only [acceptInvite, hmarked]
        rw [if_pos (by simp)]
      by_cases hmem : workspaces.any (fun w =>
          decide (w.id = invite.workspaceId) && decide (w.userId = some uid))
      · rw [if_pos hmem]
        exact ⟨fun _ => ⟨hnone, hexp, hmarked, hsecond⟩,
          fun hu => absurd hu hused, fun he => absurd he hexp⟩
      · rw [if_neg hmem]
        exact ⟨fun _ => ⟨hnone, hexp, hmarked, hsecond⟩,
          fun hu => absurd hu hused, fun he => absurd he hexp⟩

/-- C7 witness: accepting a fresh invite, then accepting it a second time. -/
theorem invite_single_use_and_expiry_witness :
    ([fixtureInvite].find? (fun i => i.token = "inv_t") = some fixtureInvite) ∧
    (acceptInvite [fixtureInvite] [fixtureWorkspace] (some 2) (some "inv_t") 500).outcome =
      AcceptOutcome.accepted ∧
    (acceptInvite
      (acceptInvite [fixtureInvite] [fixtureWorkspace] (some 2) (some "inv_t") 500).invites
      [] (some 3) (some "inv_t") 600).outcome = AcceptOutcome.alreadyUsed := by
  have h := invite_single_use_and_expiry [fixtureInvite] [fixtureWorkspace] 2 "inv_t" 500
    fixtureInvite (by decide)
  exact ⟨by decide, by decide, (h.1 (Or.inl (by decide))).2.2.2 3 600 []⟩

/-- C3 witness: a two reading window giving 50 percent, and the empty window
giving null. -/
theorem uptime_percentage_bounds_witness :
    uptimeWindow demoReadings 1 0 = some 50 ∧
    (0 : ℤ) ≤ 50 ∧ (50 : ℤ) ≤ 100 ∧
    (uptimeWindow ([] : List ReadingRow) 1 0 = none ↔
      windowRows ([] : List ReadingRow) 1 0 = []) := by
  have hw : windowRows demoReadings 1 0 = demoReadings := by decide
  have h50 : uptimeWindow demoReadings 1 0 = some 50 := by
    unfold uptimeWindow
    rw [hw]
    have hoc : onlineCount demoReadings = 1 := by decide
    have hlen : demoReadings.length = 2 := by decide
    rw [hoc, hlen]
    norm_num [calcUptime, jsRound_eq, Int.floor_eq_iff]
  have h := uptime_percentage_bounds demoReadings 1 0 0
  exact ⟨h50, (h.2.1 50 h50).2.1, (h.2.1 50 h50).2.2,
    (uptime_percentage_bounds ([] : List ReadingRow) 1 0 0).1⟩

theorem countModel_map_bump_of_ne (mb : List (String × Nat)) (m m2 : String)
    (hne : m ≠ m2) :
    countModel (mb.map (fun e => if e.1 = m then (e.1, e.2 + 1) else e)) m2 =
      countModel mb m2 := by
  induction mb with
  | nil => rfl
  | cons a t ih =>
    rw [List.map_cons]
    by_cases ha : a.1 = m2
    · have ham : ¬ a.1 = m := by rw [ha]; exact fun h => hne h.symm
      rw [if_neg ham]
      unfold countModel
      rw [List.find?_cons_of_pos _ (by simp [ha]), List.find?_cons_of_pos _ (by simp [ha])]
    · have hkey : (if a.1 = m then (a.1, a.2 + 1) else a).1 = a.1 := by
        by_cases h : a.1 = m
        · rw [if_pos h]
        · rw [if_neg h]
      unfold countModel
      rw [List.find?_cons_of_neg _ (by simp [hkey, ha]),
        List.find?_cons_of_neg _ (by simp [ha])]
      exact ih

theorem countModel_map_bump_of_mem (mb : List (String × Nat)) (m : String)
    (hany : mb.any (fun e => e.1 = m)) :
    countModel (mb.map (fun e => if e.1 = m then (e.1, e.2 + 1) else e)) m =
      countModel mb m + 1 := by
  induction mb with
  | nil => simp at hany
  | cons a t ih =>
    rw [List.map_cons]
    by_cases ha : a.1 = m
    · rw [if_pos ha]
      unfold countModel
      rw [List.find?_cons_of_pos _ (by simp [ha]), List.find?_cons_of_pos _ (by simp [ha])]
      rfl
    · rw [if_neg ha]
      have hany2 : t.any (fun e => e.1 = m) := by
        rcases List.any_eq_true.mp hany with ⟨e, he, hpe⟩
        rcases List.mem_cons.mp he with h | h
        · exact absurd (by rw [← h]; exact of_decide_eq_true hpe) ha
        · exact List.any_eq_true.mpr ⟨e, h, hpe⟩
      unfold countModel
      rw [List.find?_cons_of_neg _ (by simp [ha]), List.find?_cons_of_neg _ (by simp [ha])]
      exact ih hany2

theorem countModel_append_single (mb : List (String × Nat)) (m m2 : String)
    (hnone : mb.find? (fun e => e.1 = m2) = none ∨ m ≠ m2) :
    countModel (mb ++ [(m, 1)]) m2 =
      countModel mb m2 + (if m = m2 then 1 else 0) := by
  induction mb with
  | nil =>
    by_cases h : m = m2
    · unfold countModel
      rw [List.nil_append, List.find?_cons_of_pos _ (by simp [h]), if_pos h]
      rfl
    · unfold countModel
      rw [List.nil_append, List.find?_cons_of_neg _ (by simp [h]), if_neg h]
      rfl
  | cons a t ih =>
    rw [List.cons_append]
    by_cases ha : a.1 = m2
    · rcases hnone with hn | hn
      · rw [List.find?_cons_of_pos _ (by simp [ha])] at hn
        cases hn
      · unfold countModel
        rw [List.find?_cons_of_pos _ (by simp [ha]),
          List.find?_cons_of_pos _ (by simp [ha]), if_neg hn]
        rfl
    · unfold countModel
      rw [List.find?_cons_of_neg _ (by simp [ha]), List.find?_cons_of_neg _ (by simp [ha])]
      apply ih
      rcases hnone with hn | hn
      · rw [List.find?_cons_of_neg _ (by simp [ha])] at hn
        exact Or.inl hn
      · exact Or.inr hn

theorem countModel_bumpModel (mb : List (String × Nat)) (m m2 : String) :
    countModel (bumpModel mb m) m2 = countModel mb m2 + (if m = m2 then 1 else 0) := by
  unfold bumpModel
  by_cases hany : mb.any (fun e => e.1 = m)
  · rw [if_pos hany]
    by_cases h : m = m2
    · subst h
      rw [if_pos rfl, countModel_map_bump_of_mem mb m hany]
    · rw [if_neg h, countModel_map_bump_of_ne mb m m2 h]
      omega
  · rw [if_neg hany]
    apply countModel_append_single
    by_cases h : m = m2
    · subst h
      left
      rw [List.find?_eq_none]
      intro e he
      simp only [decide_eq_true_eq]
      intro hkey
      exact hany (List.any_eq_true.mpr ⟨e, he, by simp [hkey]⟩)
    · exact Or.inr h

theorem getSessionStats_breakdown_aux (sessions : List SessionEntry)
    (now todayMs : Int) (m : String) (acc : SessionData) :
    countModel (sessions.foldl
      (fun acc s =>
        let acc1 := { acc with total := acc.total + 1 }
        let acc2 :=
          if now - 600000 < s.updatedAt then { acc1 with active := acc1.active + 1 } else acc1
        if todayMs < s.updatedAt then
          { acc2 with
            tokens :=
              ⟨acc2.tokens.inputTokens + s.inputTokens,
               acc2.tokens.outputTokens + s.outputTokens,
               acc2.tokens.totalTokens + jsOrNat s.totalTokens (s.inputTokens + s.outputTokens)⟩,
            modelBreakdown := bumpModel acc2.modelBreakdown (sessionModelName s) }
        else acc2) acc).modelBreakdown m =
    countModel acc.modelBreakdown m +
      sessions.countP
        (fun s => decide (todayMs < s.updatedAt) && decide (sessionModelName s = m)) := by
  induction sessions generalizing acc with
  | nil => simp
  | cons s t ih =>
    rw [List.foldl_cons, ih]
    by_cases htoday : todayMs < s.updatedAt
    · by_cases hactive : now - 600000 < s.updatedAt
      · simp only [htoday, hactive, if_true, ite_true, List.countP_cons,
          decide_eq_true_eq, countModel_bumpModel]
        by_cases hm : sessionModelName s = m
        · simp [hm, htoday]
          omega
        · simp [hm, htoday]
      · simp only [htoday, hactive, if_true, ite_true, if_false, ite_false,
          List.countP_cons, countModel_bumpModel]
        by_cases hm : sessionModelName s = m
        · simp [hm, htoday]
          omega
        · simp [hm, htoday]
    · by_cases hactive : now - 600000 < s.updatedAt
      · simp [htoday, hactive, List.countP_cons]
      · simp [htoday, hactive, List.countP_cons]

/-- C8: the cost estimation picks as primary model one with maximal count in
the today breakdown (which itself counts exactly the sessions active after
local midnight, per model); a primary model name containing no pricing key
falls back to the hardcoded default rates 3 and 15 per million tokens; and
the month cost is the pre-rounding today cost times the day of the month. -/
theorem cost_estimation_majority_fallback_extrapolation
    (tokens : TokenStats) (mb : List (String × Nat)) (dayOfMonth : Nat)
    (sessions : List SessionEntry) (now todayMs : Int) (m : String) :
    (mb ≠ [] → ∃ c : Nat, (primaryModel mb, c) ∈ mb ∧ ∀ e ∈ mb, e.2 ≤ c) ∧
    ((∀ k ∈ MODEL_PRICING.map (fun e => e.1), strIncludes (primaryModel mb) k = false) →
      calculateCosts tokens mb dayOfMonth =
        ⟨round2 ((tokens.inputTokens : ℚ) / 1000000 * 3 +
            (tokens.outputTokens : ℚ) / 1000000 * 15),
         round2 (((tokens.inputTokens : ℚ) / 1000000 * 3 +
            (tokens.outputTokens : ℚ) / 1000000 * 15) * (dayOfMonth : ℚ))⟩) ∧
    calculateCosts tokens mb dayOfMonth =
      ⟨round2 (rawTodayCost tokens mb), round2 (rawTodayCost tokens mb * (dayOfMonth : ℚ))⟩ ∧
    countModel (getSessionStats sessions now todayMs).modelBreakdown m =
      sessions.countP
        (fun s => decide (todayMs < s.updatedAt) && decide (sessionModelName s = m)) := by
  refine ⟨?_, ?_, rfl, ?_⟩
  · intro hne
    have hperm : List.Perm (sortModelCounts mb) mb := List.perm_insertionSort countDesc mb
    have hsort : (sortModelCounts mb).Sorted countDesc :=
      List.sorted_insertionSort countDesc mb
    have hlne : sortModelCounts mb ≠ [] := by
      intro h0
      rw [h0] at hperm
      exact hne hperm.nil_eq.symm
    obtain ⟨e0, t, hl⟩ := List.exists_cons_of_ne_nil hlne
    have hprim : primaryModel mb = e0.1 := by
      unfold primaryModel
      rw [hl]
      rfl
    refine ⟨e0.2, ?_, ?_⟩
    · rw [hprim]
      exact hperm.mem_iff.mp (hl ▸ List.mem_cons_self e0 t)
    · intro e he
      have he2 : e ∈ sortModelCounts mb := hperm.mem_iff.mpr he
      rw [hl] at he2 hsort
      rcases List.mem_cons.mp he2 with h | h
      · rw [h]
      · exact List.rel_of_sorted_cons hsort e h
  · intro hall
    have hfk : findModelKey (primaryModel mb) = "default" := by
      unfold findModelKey
      rw [List.find?_eq_none.mpr ?_]
      · rfl
      · intro k hk
        simp [hall k hk]
    have hpr : pricingFor "default" = ⟨3, 15⟩ := by decide
    unfold calculateCosts rawTodayCost
    rw [hfk, hpr]
  · unfold getSessionStats
    rw [getSessionStats_breakdown_aux]
    simp [countModel]

/-- C8 witness: a breakdown with a clear majority and an unknown-model
breakdown falling back to default rates. -/
theorem cost_estimation_majority_fallback_extrapolation_witness :
    ([("a", 1), ("b", 3), ("c", 2)] : List (String × Nat)) ≠ [] ∧
    (∃ c : Nat, (primaryModel [("a", 1), ("b", 3), ("c", 2)], c) ∈
        ([("a", 1), ("b", 3), ("c", 2)] : List (String × Nat)) ∧
      ∀ e ∈ ([("a", 1), ("b", 3), ("c", 2)] : List (String × Nat)), e.2 ≤ c) ∧
    countModel (getSessionStats [⟨100, 5, 7, none, some "claude-sonnet-4-5"⟩] 200 50).modelBreakdown
        "claude-sonnet-4-5" = 1 := by
  have h := cost_estimation_majority_fallback_extrapolation ⟨0, 0, 0⟩
    [("a", 1), ("b", 3), ("c", 2)] 1 [⟨100, 5, 7, none, some "claude-sonnet-4-5"⟩]
    200 50 "claude-sonnet-4-5"
  refine ⟨by decide, h.1 (by decide), ?_⟩
  rw [h.2.2.2]
  decide

/-- C9: an absent session state file yields the zero session default (and so
a payload with zero active and total sessions) without aborting the run; a
parse failure also degrades to the zero default; and in the universal
reporter the cron and gateway sub collections are computed from their own
files regardless of the absent sessions file. -/
theorem collector_best_effort_defaults (now todayMs : Int)
    (cf : Option (Except Unit (List CronJobEntry)))
    (gf : Option (Except Unit (Option Int))) :
    getSessionStatsFromFile none now todayMs = defaultSessionData ∧
    getSessionStatsFromFile (some (Except.error ())) now todayMs = defaultSessionData ∧
    reporterPayloadSessions none now todayMs = ⟨0, 0⟩ ∧
    (getOpenClawMetrics none cf gf now).sessions = (0, 0) ∧
    (getOpenClawMetrics none cf gf now).crons = cronsFromFile cf ∧
    (cf ≠ some (Except.error ()) →
      (getOpenClawMetrics none cf gf now).gateway = gatewayFromFile gf now) := by
  refine ⟨rfl, rfl, rfl, ?_, ?_, ?_⟩ <;>
  · rcases cf with _ | cfe
    · rcases gf with _ | gfe
      · first
        | exact rfl
        | exact fun _ => rfl
      · rcases gfe with e2 | v2 <;>
          first
          | exact rfl
          | exact fun _ => rfl
    · rcases cfe with e | jobs
      · first
        | exact rfl
        | exact fun h => absurd rfl (by cases e; exact h)
      · rcases gf with _ | gfe
        · first
          | exact rfl
          | exact fun _ => rfl
        · rcases gfe with e2 | v2 <;>
            first
            | exact rfl
            | exact fun _ => rfl

/-- C9 witness: absent sessions file with a present cron file and gateway
state file. -/
theorem collector_best_effort_defaults_witness :
    getSessionStatsFromFile none 0 0 = defaultSessionData ∧
    (getOpenClawMetrics none (some (Except.ok [⟨"job", some true⟩]))
      (some (Except.ok (some 1000))) 5000).sessions = (0, 0) ∧
    (getOpenClawMetrics none (some (Except.ok [⟨"job", some true⟩]))
      (some (Except.ok (some 1000))) 5000).crons = (1, 1) ∧
    (getOpenClawMetrics none (some (Except.ok [⟨"job", some true⟩]))
      (some (Except.ok (some 1000))) 5000).gateway = some (true, 4) := by
  have h := collector_best_effort_defaults 5000 0
    (some (Except.ok [⟨"job", some true⟩])) (some (Except.ok (some 1000)))
  refine ⟨h.1, h.2.2.2.1, ?_, ?_⟩
  · rw [h.2.2.2.2.1]
    decide
  · rw [h.2.2.2.2.2 (by simp)]
    decide

theorem find_map_set (m : MemStore) (k : String) (v : MemEntry)
    (hany : m.any (fun e => e.1 = k) = true) :
    (m.map (fun e => if e.1 = k then (k, v) else e)).find? (fun e => e.1 = k) =
      some (k, v) := by
  induction m with
  | nil => simp at hany
  | cons a t ih =>
    rw [List.map_cons]
    by_cases ha : a.1 = k
    · rw [if_pos ha]
      exact List.find?_cons_of_pos _ (by simp)
    · rw [if_neg ha, List.find?_cons_of_neg _ (by simp [ha])]
      apply ih
      rcases List.any_eq_true.mp hany with ⟨e, he, hpe⟩
      rcases List.mem_cons.mp he with h | h
      · exact absurd (by rw [← h]; exact of_decide_eq_true hpe) ha
      · exact List.any_eq_true.mpr ⟨e, h, hpe⟩

theorem find_append_single (m : MemStore) (k : String) (v : MemEntry)
    (hnone : m.find? (fun e => e.1 = k) = none) :
    (m ++ [(k, v)]).find? (fun e => e.1 = k) = some (k, v) := by
  induction m with
  | nil =>
    rw [List.nil_append]
    exact List.find?_cons_of_pos _ (by simp)
  | cons a t ih =>
    rw [List.cons_append]
    by_cases ha : a.1 = k
    · rw [List.find?_cons_of_pos _ (by simp [ha])] at hnone
      cases hnone
    · rw [List.find?_cons_of_neg _ (by simp [ha])] at hnone
      rw [List.find?_cons_of_neg _ (by simp [ha])]
      exact ih hnone

theorem find_map_set_ne (m : MemStore) (k : String) (v : MemEntry) (k2 : String)
    (h : k2 ≠ k) :
    (m.map (fun e => if e.1 = k then (k, v) else e)).find? (fun e => e.1 = k2) =
      m.find? (fun e => e.1 = k2) := by
  induction m with
  | nil => rfl
  | cons a t ih =>
    rw [List.map_cons]
    by_cases ha : a.1 = k2
    · have hak : ¬ a.1 = k := by rw [ha]; exact h
      rw [if_neg hak, List.find?_cons_of_pos _ (by simp [ha]),
        List.find?_cons_of_pos _ (by simp [ha])]
    · have hkey : (if a.1 = k then (k, v) else a).1 ≠ k2 := by
        by_cases hk : a.1 = k
        · rw [if_pos hk]
          exact fun hc => h hc.symm
        · rw [if_neg hk]
          exact ha
      rw [List.find?_cons_of_neg _ (by simp [hkey]),
        List.find?_cons_of_neg _ (by simp [ha])]
      exact ih

theorem find_append_single_ne (m : MemStore) (k : String) (v : MemEntry)
    (k2 : String) (h : k2 ≠ k) :
    (m ++ [(k, v)]).find? (fun e => e.1 = k2) = m.find? (fun e => e.1 = k2) := by
  induction m with
  | nil =>
    rw [List.nil_append]
    rw [List.find?_cons_of_neg _ (by simp; exact fun hc => h hc.symm)]
  | cons a t ih =>
    rw [List.cons_append]
    by_cases ha : a.1 = k2
    · rw [List.find?_cons_of_pos _ (by simp [ha]), List.find?_cons_of_pos _ (by simp [ha])]
    · rw [List.find?_cons_of_neg _ (by simp [ha]), List.find?_cons_of_neg _ (by simp [ha])]
      exact ih

theorem mapGet_mapSet_self (m : MemStore) (k : String) (v : MemEntry) :
    mapGet (mapSet m k v) k = some v := by
  unfold mapGet mapSet
  by_cases hany : m.any (fun e => e.1 = k)
  · rw [if_pos hany, find_map_set m k v hany]
    rfl
  · rw [if_neg hany, find_append_single m k v ?_]
    · rfl
    · rw [List.find?_eq_none]
      intro e he
      simp only [decide_eq_true_eq]
      intro hek
      exact hany (List.any_eq_true.mpr ⟨e, he, by simp [hek]⟩)

theorem mapGet_mapSet_ne (m : MemStore) (k : String) (v : MemEntry) (k2 : String)
    (h : k2 ≠ k) : mapGet (mapSet m k v) k2 = mapGet m k2 := by
  unfold mapGet mapSet
  by_cases hany : m.any (fun e => e.1 = k)
  · rw [if_pos hany, find_map_set_ne m k v k2 h]
  · rw [if_neg hany, find_append_single_ne m k v k2 h]

theorem memKeys_mapSet (m : MemStore) (k : String) (v : MemEntry) :
    memKeys (mapSet m k v) =
      if m.any (fun e => e.1 = k) then memKeys m else memKeys m ++ [k] := by
  unfold mapSet memKeys
  by_cases hany : m.any (fun e => e.1 = k)
  · rw [if_pos hany, if_pos hany, List.map_map]
    apply List.map_congr_left
    intro e _
    by_cases he : e.1 = k
    · simp [he]
    · simp [he]
  · rw [if_neg hany, if_neg hany, List.map_append]
    rfl

theorem nodup_memKeys_mapSet (m : MemStore) (k : String) (v : MemEntry)
    (h : (memKeys m).Nodup) : (memKeys (mapSet m k v)).Nodup := by
  rw [memKeys_mapSet]
  by_cases hany : m.any (fun e => e.1 = k)
  · rw [if_pos hany]
    exact h
  · rw [if_neg hany]
    have hk : k ∉ memKeys m := by
      intro hkin
      rcases List.mem_map.mp hkin with ⟨e, he, hek⟩
      exact absurd (List.any_eq_true.mpr ⟨e, he, by simp [hek]⟩) hany
    simp [List.nodup_append, h, hk]

theorem countP_key_le_one (m : MemStore) (h : (memKeys m).Nodup) (k : String) :
    m.countP (fun e => e.1 = k) ≤ 1 := by
  induction m with
  | nil => simp
  | cons a t ih =>
    rw [List.countP_cons]
    unfold memKeys at h
    rw [List.map_cons, List.nodup_cons] at h
    by_cases hak : a.1 = k
    · have ht0 : t.countP (fun e => e.1 = k) = 0 := by
        rw [List.countP_eq_zero]
        intro e he
        simp only [decide_eq_true_eq]
        intro hek
        exact h.1 (List.mem_map.mpr ⟨e, he, by rw [hek, hak]⟩)
      simp [hak, ht0]
    · rw [if_neg (by simp [hak])]
      simpa using ih h.2

/-- C10: the in-memory store keeps at most one report per api key; a
successful POST overwrites the entry of that key, so the dashboard, sessions
and crons queries return exactly the most recently submitted payload, other
keys are untouched, and no second entry for the key survives. -/
theorem mem_store_latest_wins (store : MemStore) (auth : Option String)
    (body : Except Unit MemPayload) (now : Int) (key : String) (p : MemPayload)
    (hkeys : (memKeys store).Nodup)
    (hauth : bearerToken auth = some key)
    (hkey : ¬ key = "")
    (hbody : body = Except.ok p) :
    (memPostReport store auth body now).status = 200 ∧
    (memPostReport store auth body now).success = true ∧
    (memPostReport store auth body now).store = mapSet store key ⟨p, now⟩ ∧
    (memKeys (memPostReport store auth body now).store).Nodup ∧
    (∀ k2, (memPostReport store auth body now).store.countP (fun e => e.1 = k2) ≤ 1) ∧
    mapGet (memPostReport store auth body now).store key = some ⟨p, now⟩ ∧
    (∀ now2, memDashboard (memPostReport store auth body now).store key now2 =
      some (p, now, decide (now2 - now < 600000))) ∧
    memSessions (memPostReport store auth body now).store key = p.sessions ∧
    memCrons (memPostReport store auth body now).store key = p.crons ∧
    (∀ k2, k2 ≠ key →
      mapGet (memPostReport store auth body now).store k2 = mapGet store k2) := by
  subst hbody
  have hpost : memPostReport store auth (Except.ok p) now =
      ⟨200, true, mapSet store key ⟨p, now⟩⟩ := by
    simp [memPostReport, hauth, hkey]
  rw [hpost]
  have hnd := nodup_memKeys_mapSet store key ⟨p, now⟩ hkeys
  have hget := mapGet_mapSet_self store key ⟨p, now⟩
  refine ⟨rfl, rfl, rfl, hnd, fun k2 => countP_key_le_one _ hnd k2, hget, ?_, ?_, ?_,
    fun k2 hk2 => mapGet_mapSet_ne store key ⟨p, now⟩ k2 hk2⟩
  · intro now2
    unfold memDashboard
    rw [hget]
    rfl
  · unfold memSessions
    rw [hget]
    rfl
  · unfold memCrons
    rw [hget]
    rfl

/-- C10 witness: two posts under one key; the second overwrites the first. -/
theorem mem_store_latest_wins_witness :
    (memKeys (memPostReport [] (some "Bearer k1") (Except.ok memPayloadA) 10).store).Nodup ∧
    mapGet (memPostReport
      (memPostReport [] (some "Bearer k1") (Except.ok memPayloadA) 10).store
      (some "Bearer k1") (Except.ok memPayloadB) 20).store "k1" =
        some ⟨memPayloadB, 20⟩ ∧
    memCrons (memPostReport
      (memPostReport [] (some "Bearer k1") (Except.ok memPayloadA) 10).store
      (some "Bearer k1") (Except.ok memPayloadB) 20).store "k1" = memPayloadB.crons := by
  have h := mem_store_latest_wins
    (memPostReport [] (some "Bearer k1") (Except.ok memPayloadA) 10).store
    (some "Bearer k1") (Except.ok memPayloadB) 20 "k1" memPayloadB
    (by decide) (by decide) (by decide) rfl
  exact ⟨by decide, h.2.2.2.2.2.1, h.2.2.2.2.2.2.2.2.1⟩

end Pawprint
